import Mathlib

/-!
Shallow embedding of the countdown-timer application's core logic
(`script.js`): time arithmetic, the `Timer` entity, persistence
serialization, the scheduler tick, the sort/filter projection and the
collection-level pause/resume operations.

Modelling conventions:
* instants are milliseconds since the epoch (`Nat`); durations and
  differences of instants are `Int` (JavaScript `Date` subtraction);
* the host's local time zone is fixed at UTC offset 0, so a calendar
  date string `"YYYY-MM-DD"` is modelled as a day index (`Nat`, days
  since the epoch) and a time-of-day string `"HH:MM[:SS]"` as an
  `hours`/`minutes`/`seconds` triple;
* `null`-able fields are `Option`s; a JavaScript object is truthy, so
  the truthiness test on `pausedTimeRemaining` is an `Option` match;
* an omitted / falsy string argument is `none`; `alertBefore` passed
  as `undefined` is `none` (an explicit `0` is `some 0`).
-/

namespace Countdown

/-- `TIME.SECOND` (ms). -/
def SECOND : Nat := 1000

/-- `TIME.MINUTE` (ms). -/
def MINUTE : Nat := 1000 * 60

/-- `TIME.HOUR` (ms). -/
def HOUR : Nat := 1000 * 60 * 60

/-- `TIME.DAY` (ms). -/
def DAY : Nat := 1000 * 60 * 60 * 24

/-- The record returned by `msToTimeComponents`. -/
structure TimeComponents where
  days : Nat
  hours : Nat
  minutes : Nat
  seconds : Nat
  totalSeconds : Nat
  expired : Bool
deriving DecidableEq, Repr

/-- `msToTimeComponents(ms)` from `script.js`: converts a signed
millisecond duration to calendar components by floor division. -/
def msToTimeComponents (ms : Int) : TimeComponents :=
  if ms ≤ 0 then
    { days := 0, hours := 0, minutes := 0, seconds := 0, totalSeconds := 0, expired := true }
  else
    { days := ms.toNat / DAY
      hours := ms.toNat % DAY / HOUR
      minutes := ms.toNat % HOUR / MINUTE
      seconds := ms.toNat % MINUTE / SECOND
      totalSeconds := ms.toNat / SECOND
      expired := false }

/-- A `"HH:MM[:SS]"` time-of-day string (the `targetTime` field). -/
structure TimeOfDay where
  hours : Nat
  minutes : Nat
  seconds : Nat
deriving DecidableEq, Repr

/-- The `Timer` class state. `targetDate` is the day index of the
`"YYYY-MM-DD"` string; `createdAt` is the ISO-8601 instant in ms. -/
structure Timer where
  id : Nat
  name : String
  targetDate : Nat
  targetTime : TimeOfDay
  alertBefore : Nat
  isExpired : Bool
  isPaused : Bool
  alertShown : Bool
  createdAt : Nat
  initialDuration : Option Int
  pausedTimeRemaining : Option TimeComponents
deriving DecidableEq, Repr

/-- The `Timer` constructor. `generateId()` is modelled by the explicit
`freshId` argument and `new Date()` by `now`; `name || 'Unnamed Timer'`
falls back exactly when the name string is falsy (empty). -/
def Timer.create (freshId : Nat) (now : Nat) (name : String)
    (targetDate : Nat) (targetTime : TimeOfDay) (alertBefore : Nat) : Timer :=
  { id := freshId
    name := if name.isEmpty then "Unnamed Timer" else name
    targetDate := targetDate
    targetTime := targetTime
    alertBefore := alertBefore
    isExpired := false
    isPaused := false
    alertShown := false
    createdAt := now
    initialDuration := none
    pausedTimeRemaining := none }

/-- `getTargetDateTime()`: parses `` `${targetDate}T${targetTime}` ``
into an instant (local time = UTC in this model). -/
def Timer.getTargetDateTime (t : Timer) : Nat :=
  t.targetDate * DAY + t.targetTime.hours * HOUR
    + t.targetTime.minutes * MINUTE + t.targetTime.seconds * SECOND

/-- `calculateTimeRemaining()`: the frozen snapshot while paused (an
object is truthy), otherwise `target - now` through
`msToTimeComponents`. -/
def Timer.calculateTimeRemaining (t : Timer) (now : Nat) : TimeComponents :=
  match t.isPaused, t.pausedTimeRemaining with
  | true, some p => p
  | _, _ => msToTimeComponents ((t.getTargetDateTime : Int) - (now : Int))

/-- `pause()`: snapshot the remaining time and set the paused flag. -/
def Timer.pause (t : Timer) (now : Nat) : Timer :=
  { t with pausedTimeRemaining := some (t.calculateTimeRemaining now), isPaused := true }

/-- `resume()`: when a non-expired snapshot exists, rebase the target
to `now + remainingMs` — the new `targetDate` is the ISO date part
(`newTarget / DAY`) and the new `targetTime` is built from
`getHours()`/`getMinutes()`/`getSeconds()` of the new instant — and
reset `createdAt`/`initialDuration`; in every case clear the snapshot
and the paused flag. -/
def Timer.resume (t : Timer) (now : Nat) : Timer :=
  let t1 :=
    match t.pausedTimeRemaining with
    | some p =>
      if p.expired = false then
        let remainingMs :=
          p.days * DAY + p.hours * HOUR + p.minutes * MINUTE + p.seconds * SECOND
        let newTarget := now + remainingMs
        { t with
          targetDate := newTarget / DAY
          targetTime :=
            { hours := newTarget % DAY / HOUR
              minutes := newTarget % HOUR / MINUTE
              seconds := newTarget % MINUTE / SECOND }
          createdAt := now
          initialDuration := none }
      else t
    | none => t
  { t1 with pausedTimeRemaining := none, isPaused := false }

/-- `update(name, targetDate, targetTime, alertBefore)`: a falsy
`name`/`targetDate`/`targetTime` (`none`) keeps the old value; the
`alertBefore !== undefined` test keeps the old value only for `none`;
all epoch state is reset and `createdAt` becomes `now`. -/
def Timer.update (t : Timer) (now : Nat) (name : Option String)
    (targetDate : Option Nat) (targetTime : Option TimeOfDay)
    (alertBefore : Option Nat) : Timer :=
  { t with
    name := name.getD t.name
    targetDate := targetDate.getD t.targetDate
    targetTime := targetTime.getD t.targetTime
    alertBefore := alertBefore.getD t.alertBefore
    alertShown := false
    initialDuration := none
    isExpired := false
    createdAt := now
    pausedTimeRemaining := none
    isPaused := false }

/-- `markExpired()`. -/
def Timer.markExpired (t : Timer) : Timer :=
  { t with isExpired := true }

/-- `markAlertShown()`. -/
def Timer.markAlertShown (t : Timer) : Timer :=
  { t with alertShown := true }

/-- `shouldShowAlert()`. -/
def Timer.shouldShowAlert (t : Timer) (now : Nat) : Bool :=
  if t.alertShown || t.alertBefore == 0 then false
  else
    let timeRemaining := t.calculateTimeRemaining now
    if timeRemaining.expired then false
    else
      let totalMinutes := timeRemaining.totalSeconds / 60
      decide (totalMinutes ≤ t.alertBefore)

/-- The per-timer record written by `saveTimers` (the LocalStorage
shape). `createdAt` is optional because `fromJSON` guards a missing
value with `|| new Date().toISOString()`. -/
structure TimerRecord where
  id : Nat
  name : String
  targetDate : Nat
  targetTime : TimeOfDay
  alertBefore : Nat
  createdAt : Option Nat
  isPaused : Bool
  pausedTimeRemaining : Option TimeComponents
deriving DecidableEq, Repr

/-- The per-timer mapping inside `saveTimers`; `t.alertBefore || 0`,
`t.isPaused || false` and `t.pausedTimeRemaining || null` are identities
on the modelled types. -/
def saveTimer (t : Timer) : TimerRecord :=
  { id := t.id
    name := t.name
    targetDate := t.targetDate
    targetTime := t.targetTime
    alertBefore := t.alertBefore
    createdAt := some t.createdAt
    isPaused := t.isPaused
    pausedTimeRemaining := t.pausedTimeRemaining }

/-- `saveTimers(timers)`: the serialized collection. -/
def saveTimers (timers : List Timer) : List TimerRecord :=
  timers.map saveTimer

/-- `Timer.fromJSON(data)`: rebuilds through the constructor and then
overwrites `id`, `createdAt`, `isPaused`, `pausedTimeRemaining`. -/
def Timer.fromJSON (data : TimerRecord) (freshId : Nat) (now : Nat) : Timer :=
  let timer := Timer.create freshId now data.name data.targetDate data.targetTime data.alertBefore
  { timer with
    id := data.id
    createdAt := data.createdAt.getD now
    isPaused := data.isPaused
    pausedTimeRemaining := data.pausedTimeRemaining }

/-- The per-timer body of the `startGlobalInterval` tick: paused or
already-expired timers are skipped; otherwise the remaining time is
computed, the one-shot alert may be marked shown, and a newly expired
timer is marked expired (`handleTimerExpiration` calls
`timer.markExpired()`; its persistence/notification calls are external
effects). -/
def tickTimer (now : Nat) (t : Timer) : Timer :=
  if t.isPaused || t.isExpired then t
  else
    let timeRemaining := t.calculateTimeRemaining now
    let t1 := if t.shouldShowAlert now then t.markAlertShown else t
    if timeRemaining.expired && !t1.isExpired then t1.markExpired else t1

/-- One scheduler tick over the whole collection. -/
def tick (now : Nat) (timers : List Timer) : List Timer :=
  timers.map (tickTimer now)

/-- An operation applied to a single timer after it exists. -/
inductive TimerOp where
  | pause (now : Nat)
  | resume (now : Nat)
  | markExpired
  | markAlertShown
  | tick (now : Nat)

/-- Apply one `TimerOp`. -/
def applyOp (t : Timer) : TimerOp → Timer
  | .pause now => t.pause now
  | .resume now => t.resume now
  | .markExpired => t.markExpired
  | .markAlertShown => t.markAlertShown
  | .tick now => tickTimer now t

/-- Apply a sequence of `TimerOp`s left to right. -/
def applyOps (t : Timer) (ops : List TimerOp) : Timer :=
  ops.foldl applyOp t

/-- The `SORT_OPTIONS` values. -/
inductive SortOption where
  | dateAsc
  | dateDesc
  | nameAsc
  | nameDesc
deriving DecidableEq, Repr

/-- The `FILTER_OPTIONS` values. -/
inductive FilterOption where
  | all
  | active
  | expired
deriving DecidableEq, Repr

/-- The expiredness test used by the filter and the sort comparator:
`t.isExpired || t.calculateTimeRemaining().expired`. -/
def isExpiredNow (now : Nat) (t : Timer) : Bool :=
  t.isExpired || (t.calculateTimeRemaining now).expired

/-- `a.name.localeCompare(b.name, 'en')`, modelled as code-point string
comparison returning the sign. -/
def localeCompare (a b : String) : Int :=
  if a < b then -1 else if b < a then 1 else 0

/-- The sort-key branch of the comparator in
`getFilteredAndSortedTimers` (the `switch (currentSort)`). -/
def keyCompare (sortKey : SortOption) (a b : Timer) : Int :=
  match sortKey with
  | .dateAsc => (a.getTargetDateTime : Int) - (b.getTargetDateTime : Int)
  | .dateDesc => (b.getTargetDateTime : Int) - (a.getTargetDateTime : Int)
  | .nameAsc => localeCompare a.name b.name
  | .nameDesc => localeCompare b.name a.name

/-- The full comparator passed to `filtered.sort`: expired timers
compare after non-expired ones, then the chosen key decides. -/
def compareTimers (sortKey : SortOption) (now : Nat) (a b : Timer) : Int :=
  let aExpired := isExpiredNow now a
  let bExpired := isExpiredNow now b
  if aExpired && !bExpired then 1
  else if !aExpired && bExpired then -1
  else keyCompare sortKey a b

/-- The "less or equal" relation induced by the comparator (an
`Array.prototype.sort` comparator orders `a` no later than `b` exactly
when it returns a non-positive number). -/
def timerLe (sortKey : SortOption) (now : Nat) (a b : Timer) : Prop :=
  compareTimers sortKey now a b ≤ 0

instance (sortKey : SortOption) (now : Nat) : DecidableRel (timerLe sortKey now) :=
  fun a b => inferInstanceAs (Decidable (compareTimers sortKey now a b ≤ 0))

/-- `getFilteredAndSortedTimers()`: filter by status, then sort with the
comparator; the input collection is copied (`[...timers]`), never
mutated. -/
def getFilteredAndSortedTimers (timers : List Timer) (filter : FilterOption)
    (sortKey : SortOption) (now : Nat) : List Timer :=
  let filtered : List Timer :=
    match filter with
    | .active => timers.filter fun t => !t.isExpired && !(t.calculateTimeRemaining now).expired
    | .expired => timers.filter fun t => t.isExpired || (t.calculateTimeRemaining now).expired
    | .all => timers
  filtered.insertionSort (timerLe sortKey now)

/-- The `TOAST_TYPES` a collection operation may report. -/
inductive ToastType where
  | success
  | error
  | warning
deriving DecidableEq, Repr

/-- Replace the first timer matching `id` (the object `Array.find`
returns is mutated in place in the source). -/
def replaceById (id : Nat) (f : Timer → Timer) : List Timer → List Timer
  | [] => []
  | t :: ts => if t.id = id then f t :: ts else t :: replaceById id f ts

/-- `pauseTimer(id)`: missing id is a silent no-op; a timer whose
current remaining time is expired is rejected with a warning toast;
otherwise the timer is paused and a success toast shown (the
`saveTimers`/render calls are external effects). -/
def pauseTimer (timers : List Timer) (id : Nat) (now : Nat) :
    List Timer × Option ToastType :=
  match timers.find? (fun t => t.id == id) with
  | none => (timers, none)
  | some t =>
    let timeRemaining := t.calculateTimeRemaining now
    if timeRemaining.expired then (timers, some .warning)
    else (replaceById id (fun x => x.pause now) timers, some .success)

/-- `resumeTimer(id)`: same guard structure as `pauseTimer`. -/
def resumeTimer (timers : List Timer) (id : Nat) (now : Nat) :
    List Timer × Option ToastType :=
  match timers.find? (fun t => t.id == id) with
  | none => (timers, none)
  | some t =>
    let timeRemaining := t.calculateTimeRemaining now
    if timeRemaining.expired then (timers, some .warning)
    else (replaceById id (fun x => x.resume now) timers, some .success)

/-! ### Sample timers used by witnesses -/

/-- A fresh, active timer (target at day 1, 02:30, alert disabled). -/
def sampleTimer : Timer :=
  { id := 1, name := "Sample", targetDate := 1, targetTime := ⟨2, 30, 0⟩,
    alertBefore := 0, isExpired := false, isPaused := false, alertShown := false,
    createdAt := 0, initialDuration := none, pausedTimeRemaining := none }

/-- A paused timer frozen at five minutes remaining. -/
def pausedSample : Timer :=
  { sampleTimer with
    id := 2
    isPaused := true
    pausedTimeRemaining :=
      some { days := 0, hours := 0, minutes := 5, seconds := 0,
             totalSeconds := 300, expired := false } }

/-- A timer that has already expired and shown its alert. -/
def finishedSample : Timer :=
  { sampleTimer with id := 10, name := "Done", isExpired := true, alertShown := true }

/-! ### Claims -/

/-- C4: `msToTimeComponents` returns all-zero components with
`expired = true` for every `ms ≤ 0`, the floor-division decomposition
with `expired = false` for every `ms > 0`, and in particular maps
`90061000` to one day, one hour, one minute, one second. -/
theorem msToTimeComponents_spec :
    (∀ ms : Int, ms ≤ 0 →
      msToTimeComponents ms =
        { days := 0, hours := 0, minutes := 0, seconds := 0,
          totalSeconds := 0, expired := true }) ∧
    (∀ ms : Int, 0 < ms →
      msToTimeComponents ms =
        { days := ms.toNat / 86400000
          hours := ms.toNat % 86400000 / 3600000
          minutes := ms.toNat % 3600000 / 60000
          seconds := ms.toNat % 60000 / 1000
          totalSeconds := ms.toNat / 1000
          expired := false }) ∧
    msToTimeComponents 90061000 =
      { days := 1, hours := 1, minutes := 1, seconds := 1,
        totalSeconds := 90061, expired := false } := by
  refine ⟨fun ms h => ?_, fun ms h => ?_, by decide⟩
  · simp [msToTimeComponents, h]
  · rw [msToTimeComponents, if_neg (not_le.mpr h)]
    norm_num [DAY, HOUR, MINUTE, SECOND]

/-- Witness for C4 at the concrete inputs `-7` and `90061000`. -/
theorem msToTimeComponents_spec_witness :
    msToTimeComponents (-7) =
      { days := 0, hours := 0, minutes := 0, seconds := 0,
        totalSeconds := 0, expired := true } ∧
    msToTimeComponents 90061000 =
      { days := 90061000 / 86400000, hours := 90061000 % 86400000 / 3600000,
        minutes := 90061000 % 3600000 / 60000, seconds := 90061000 % 60000 / 1000,
        totalSeconds := 90061000 / 1000, expired := false } :=
  ⟨msToTimeComponents_spec.1 (-7) (by decide),
   msToTimeComponents_spec.2.1 90061000 (by decide)⟩

/-- C3: `shouldShowAlert()` is true exactly when the alert has not been
shown, `alertBefore` is positive, the current remaining time is not
expired, and the floored remaining minutes are at most `alertBefore`;
with `alertBefore = 0` it is always false. -/
theorem shouldShowAlert_iff :
    (∀ (t : Timer) (now : Nat),
      t.shouldShowAlert now = true ↔
        (t.alertShown = false ∧ 0 < t.alertBefore ∧
          (t.calculateTimeRemaining now).expired = false ∧
          (t.calculateTimeRemaining now).totalSeconds / 60 ≤ t.alertBefore)) ∧
    (∀ (t : Timer) (now : Nat), t.alertBefore = 0 → t.shouldShowAlert now = false) := by
  constructor
  · intro t now
    cases h1 : t.alertShown <;>
      cases h2 : (t.calculateTimeRemaining now).expired <;>
        by_cases h0 : t.alertBefore = 0 <;>
          simp [Timer.shouldShowAlert, h1, h2, h0, Nat.pos_of_ne_zero]
  · intro t now h
    simp [Timer.shouldShowAlert, h]

/-- Witness for C3: a timer with `alertBefore = 0` never alerts. -/
theorem shouldShowAlert_iff_witness : sampleTimer.shouldShowAlert 0 = false :=
  shouldShowAlert_iff.2 sampleTimer 0 rfl

/-- C6: while paused with a snapshot, `calculateTimeRemaining()` returns
exactly the snapshot at every instant. -/
theorem paused_remaining_frozen (t : Timer) (p : TimeComponents) (now : Nat)
    (hp : t.isPaused = true) (hs : t.pausedTimeRemaining = some p) :
    t.calculateTimeRemaining now = p := by
  unfold Timer.calculateTimeRemaining
  rw [hp, hs]

/-- Witness for C6 on a concrete paused timer, long after its target. -/
theorem paused_remaining_frozen_witness :
    pausedSample.calculateTimeRemaining 999999999 =
      { days := 0, hours := 0, minutes := 5, seconds := 0,
        totalSeconds := 300, expired := false } :=
  paused_remaining_frozen pausedSample _ 999999999 rfl rfl

/-- C5: `update` resets the epoch (flags false, snapshot and cached
duration cleared, `createdAt := now`), keeps a falsy
`name`/`targetDate`/`targetTime` argument's previous value, and keeps
`alertBefore` only when the argument is `undefined` — an explicit
value, `0` included, overwrites. -/
theorem update_resets (t : Timer) (now : Nat) (name : Option String)
    (targetDate : Option Nat) (targetTime : Option TimeOfDay)
    (alertBefore : Option Nat) :
    (t.update now name targetDate targetTime alertBefore).isExpired = false ∧
    (t.update now name targetDate targetTime alertBefore).alertShown = false ∧
    (t.update now name targetDate targetTime alertBefore).isPaused = false ∧
    (t.update now name targetDate targetTime alertBefore).pausedTimeRemaining = none ∧
    (t.update now name targetDate targetTime alertBefore).initialDuration = none ∧
    (t.update now name targetDate targetTime alertBefore).createdAt = now ∧
    (t.update now name targetDate targetTime alertBefore).id = t.id ∧
    (name = none → (t.update now name targetDate targetTime alertBefore).name = t.name) ∧
    (∀ s, name = some s → (t.update now name targetDate targetTime alertBefore).name = s) ∧
    (targetDate = none →
      (t.update now name targetDate targetTime alertBefore).targetDate = t.targetDate) ∧
    (∀ d, targetDate = some d →
      (t.update now name targetDate targetTime alertBefore).targetDate = d) ∧
    (targetTime = none →
      (t.update now name targetDate targetTime alertBefore).targetTime = t.targetTime) ∧
    (∀ x, targetTime = some x →
      (t.update now name targetDate targetTime alertBefore).targetTime = x) ∧
    (alertBefore = none →
      (t.update now name targetDate targetTime alertBefore).alertBefore = t.alertBefore) ∧
    (∀ a, alertBefore = some a →
      (t.update now name targetDate targetTime alertBefore).alertBefore = a) := by
  refine ⟨rfl, rfl, rfl, rfl, rfl, rfl, rfl, ?_, ?_, ?_, ?_, ?_, ?_, ?_, ?_⟩
  · rintro rfl; rfl
  · rintro s rfl; rfl
  · rintro rfl; rfl
  · rintro d rfl; rfl
  · rintro rfl; rfl
  · rintro x rfl; rfl
  · rintro rfl; rfl
  · rintro a rfl; rfl

/-- Witness for C5: an explicit `alertBefore = 0` overwrites. -/
theorem update_resets_witness :
    (sampleTimer.update 7 none none none (some 0)).alertBefore = 0 :=
  (update_resets sampleTimer 7 none none none
    (some 0)).2.2.2.2.2.2.2.2.2.2.2.2.2.2 0 rfl

/-- C10: `resume()` on a timer without a snapshot, or whose snapshot is
expired, only forces `isPaused := false` and clears the snapshot; every
other field is untouched. -/
theorem resume_frame (t : Timer) (now : Nat)
    (h : t.pausedTimeRemaining = none ∨
      ∃ p, t.pausedTimeRemaining = some p ∧ p.expired = true) :
    t.resume now = { t with isPaused := false, pausedTimeRemaining := none } := by
  unfold Timer.resume
  rcases h with h | ⟨p, hs, he⟩
  · rw [h]
  · rw [hs]
    simp [he]

/-- Witness for C10 on a timer with no snapshot. -/
theorem resume_frame_witness :
    sampleTimer.resume 42 =
      { sampleTimer with isPaused := false, pausedTimeRemaining := none } :=
  resume_frame sampleTimer 42 (Or.inl rfl)

/-- C1 fails as stated: `saveTimers` does not serialize `isExpired` or
`alertShown`, and `Timer.fromJSON` rebuilds through the constructor,
which resets both to `false` — so an expired timer whose alert was shown
does not come back with the same expiration/alert state. -/
theorem roundTrip_counterexample :
    finishedSample.isExpired = true ∧ finishedSample.alertShown = true ∧
    (Timer.fromJSON (saveTimer finishedSample) 99 123).isExpired = false ∧
    (Timer.fromJSON (saveTimer finishedSample) 99 123).alertShown = false :=
  ⟨rfl, rfl, rfl, rfl⟩

/-- C1 (amended): for a collection whose timers have non-empty names,
serializing with `saveTimers` and rebuilding each record with
`Timer.fromJSON` preserves `id`, `name`, `targetDate`, `targetTime`,
`alertBefore`, `createdAt`, `isPaused` and `pausedTimeRemaining`, while
`isExpired` and `alertShown` come back `false` (and the cached
`initialDuration` comes back `null`). -/
theorem roundTrip_preserves_fields (timers : List Timer) (freshId now : Nat)
    (h : ∀ t ∈ timers, t.name ≠ "") :
    (saveTimers timers).map (fun r => Timer.fromJSON r freshId now) =
      timers.map (fun t =>
        { t with isExpired := false, alertShown := false, initialDuration := none }) := by
  unfold saveTimers
  rw [List.map_map]
  apply List.map_congr_left
  intro t ht
  have hn : t.name.isEmpty = false := by
    rcases Bool.eq_false_or_eq_true t.name.isEmpty with hb | hb
    · exact absurd ((String.isEmpty_iff t.name).mp hb) (h t ht)
    · exact hb
  simp [Timer.fromJSON, saveTimer, Timer.create, hn]

/-- Witness for C1 (amended) on a concrete one-timer collection. -/
theorem roundTrip_preserves_fields_witness :
    (saveTimers [finishedSample]).map (fun r => Timer.fromJSON r 99 123) =
      [{ finishedSample with
          isExpired := false, alertShown := false, initialDuration := none }] :=
  roundTrip_preserves_fields [finishedSample] 99 123 (by decide)

/-- A non-paused timer whose target (30 s after the epoch) is already
in the past at the instants the witnesses use. -/
def dueSample : Timer :=
  { sampleTimer with id := 3, targetDate := 0, targetTime := ⟨0, 0, 30⟩ }

/-- C2: resuming a timer whose snapshot holds `R` remaining seconds
rebases the target so that the remaining total immediately after
`resume()` is within one second of `R`, regardless of how long the
wall clock advanced while paused (the snapshot does not depend on
`now`, so the pause duration is arbitrary). The hypothesis ties the
snapshot's `totalSeconds` to its components, as every
`msToTimeComponents` output satisfies. -/
theorem resume_preserves_remaining (t : Timer) (now : Nat) (p : TimeComponents)
    (hs : t.pausedTimeRemaining = some p) (he : p.expired = false)
    (hwf : p.totalSeconds =
      p.days * 86400 + p.hours * 3600 + p.minutes * 60 + p.seconds) :
    (p.totalSeconds : Int) - 1 ≤
      (((t.resume now).calculateTimeRemaining now).totalSeconds : Int) ∧
    (((t.resume now).calculateTimeRemaining now).totalSeconds : Int) ≤
      (p.totalSeconds : Int) := by
  have hP : (t.resume now).isPaused = false := rfl
  have hS : (t.resume now).pausedTimeRemaining = none := rfl
  have hcal : (t.resume now).calculateTimeRemaining now =
      msToTimeComponents (((t.resume now).getTargetDateTime : Int) - (now : Int)) := by
    unfold Timer.calculateTimeRemaining
    rw [hP, hS]
  have hT : (t.resume now).getTargetDateTime =
      (now + 1000 * p.totalSeconds) - (now + 1000 * p.totalSeconds) % 1000 := by
    unfold Timer.resume
    rw [hs]
    simp only [he, if_true, reduceIte]
    unfold Timer.getTargetDateTime
    simp only [DAY, HOUR, MINUTE, SECOND]
    omega
  rw [hcal, hT]
  by_cases hd :
      (((now + 1000 * p.totalSeconds) - (now + 1000 * p.totalSeconds) % 1000 : Nat) : Int)
        - (now : Int) ≤ 0
  · rw [msToTimeComponents, if_pos hd]
    constructor
    · simp only []
      omega
    · simp only []
      omega
  · rw [msToTimeComponents, if_neg hd]
    constructor
    · simp only [SECOND]
      omega
    · simp only [SECOND]
      omega

/-- Witness for C2: the five-minute snapshot resumes, at an instant that
is not on a whole second, to 299 or 300 remaining seconds. -/
theorem resume_preserves_remaining_witness :
    (300 : Int) - 1 ≤
      (((pausedSample.resume 12345).calculateTimeRemaining 12345).totalSeconds : Int) ∧
    (((pausedSample.resume 12345).calculateTimeRemaining 12345).totalSeconds : Int) ≤
      (300 : Int) :=
  resume_preserves_remaining pausedSample 12345 _ rfl rfl (by decide)

/-- C7: a non-paused, not-yet-marked timer whose remaining time is
expired gets `isExpired := true` on the very next scheduler tick, and
once `isExpired` is true no sequence of `pause`, `resume`,
`markExpired`, `markAlertShown` or scheduler ticks resets it. -/
theorem expiration_one_way :
    (∀ (t : Timer) (now : Nat), t.isPaused = false →
      (t.calculateTimeRemaining now).expired = true →
      t.isExpired = false → (tickTimer now t).isExpired = true) ∧
    (∀ (t : Timer) (ops : List TimerOp), t.isExpired = true →
      (applyOps t ops).isExpired = true) := by
  have halert : ∀ (t : Timer) (now : Nat),
      (if t.shouldShowAlert now then t.markAlertShown else t).isExpired = t.isExpired := by
    intro t now
    by_cases h : t.shouldShowAlert now <;> simp [h, Timer.markAlertShown]
  have hop : ∀ (t : Timer) (op : TimerOp), t.isExpired = true →
      (applyOp t op).isExpired = true := by
    intro t op ht
    cases op with
    | pause now => simpa [applyOp, Timer.pause] using ht
    | resume now =>
      simp only [applyOp]
      unfold Timer.resume
      cases hs : t.pausedTimeRemaining with
      | none => simpa using ht
      | some p => by_cases he : p.expired = false <;> simp [he, ht]
    | markExpired => simp [applyOp, Timer.markExpired]
    | markAlertShown => simpa [applyOp, Timer.markAlertShown] using ht
    | tick now => simp [applyOp, tickTimer, ht]
  refine ⟨?_, ?_⟩
  · intro t now hp hex hni
    simp [tickTimer, hp, hni, hex, halert, Timer.markExpired]
  · intro t ops
    induction ops generalizing t with
    | nil => intro ht; simpa [applyOps] using ht
    | cons op ops ih => intro ht; exact ih (applyOp t op) (hop t op ht)

/-- Witness for C7: an overdue timer is marked expired by the tick. -/
theorem expiration_one_way_witness :
    (tickTimer 60000 dueSample).isExpired = true :=
  expiration_one_way.1 dueSample 60000 rfl (by decide) rfl

/-- C9: `pauseTimer` and `resumeTimer` reject a timer whose current
remaining time is expired — the collection is returned unchanged with a
warning toast — and are silent no-ops for an unknown id; both are total
functions, so neither ever throws. -/
theorem pause_resume_reject_expired :
    (∀ (timers : List Timer) (id now : Nat) (t : Timer),
      timers.find? (fun x => x.id == id) = some t →
      (t.calculateTimeRemaining now).expired = true →
      pauseTimer timers id now = (timers, some ToastType.warning) ∧
      resumeTimer timers id now = (timers, some ToastType.warning)) ∧
    (∀ (timers : List Timer) (id now : Nat),
      timers.find? (fun x => x.id == id) = none →
      pauseTimer timers id now = (timers, none) ∧
      resumeTimer timers id now = (timers, none)) := by
  refine ⟨?_, ?_⟩
  · intro timers id now t hf he
    constructor
    · unfold pauseTimer
      rw [hf]
      simp [he]
    · unfold resumeTimer
      rw [hf]
      simp [he]
  · intro timers id now hf
    constructor
    · unfold pauseTimer
      rw [hf]
    · unfold resumeTimer
      rw [hf]

/-- Witness for C9 on a one-timer collection whose timer is overdue. -/
theorem pause_resume_reject_expired_witness :
    pauseTimer [dueSample] 3 60000 = ([dueSample], some ToastType.warning) ∧
    resumeTimer [dueSample] 3 60000 = ([dueSample], some ToastType.warning) :=
  pause_resume_reject_expired.1 [dueSample] 3 60000 dueSample rfl (by decide)

theorem localeCompare_nonpos (a b : String) : localeCompare a b ≤ 0 ↔ a ≤ b := by
  unfold localeCompare
  split_ifs with h1 h2
  · simp [h1.le]
  · norm_num [h2.not_le]
  · have hab : a = b := le_antisymm (not_lt.mp h2) (not_lt.mp h1)
    simp [hab]

theorem keyCompare_total (k : SortOption) (a b : Timer) :
    keyCompare k a b ≤ 0 ∨ keyCompare k b a ≤ 0 := by
  cases k <;> simp only [keyCompare]
  · omega
  · omega
  · rw [localeCompare_nonpos, localeCompare_nonpos]
    exact le_total a.name b.name
  · rw [localeCompare_nonpos, localeCompare_nonpos]
    exact le_total b.name a.name

theorem keyCompare_trans (k : SortOption) (a b c : Timer)
    (h1 : keyCompare k a b ≤ 0) (h2 : keyCompare k b c ≤ 0) :
    keyCompare k a c ≤ 0 := by
  cases k <;> simp only [keyCompare, localeCompare_nonpos] at h1 h2 ⊢
  · omega
  · omega
  · exact le_trans h1 h2
  · exact le_trans h2 h1

theorem compareTimers_total (k : SortOption) (now : Nat) (a b : Timer) :
    compareTimers k now a b ≤ 0 ∨ compareTimers k now b a ≤ 0 := by
  unfold compareTimers
  cases ha : isExpiredNow now a <;> cases hb : isExpiredNow now b <;>
    simp [ha, hb] <;> exact keyCompare_total k a b

theorem compareTimers_trans (k : SortOption) (now : Nat) (a b c : Timer)
    (h1 : compareTimers k now a b ≤ 0) (h2 : compareTimers k now b c ≤ 0) :
    compareTimers k now a c ≤ 0 := by
  unfold compareTimers at h1 h2 ⊢
  cases ha : isExpiredNow now a <;> cases hb : isExpiredNow now b <;>
    cases hc : isExpiredNow now c <;> simp [ha, hb, hc] at h1 h2 ⊢ <;>
    exact keyCompare_trans k a b c h1 h2

instance (k : SortOption) (now : Nat) : IsTotal Timer (timerLe k now) :=
  ⟨fun a b => compareTimers_total k now a b⟩

instance (k : SortOption) (now : Nat) : IsTrans Timer (timerLe k now) :=
  ⟨fun a b c => compareTimers_trans k now a b c⟩

theorem timerLe_expired (k : SortOption) (now : Nat) {a b : Timer}
    (h : timerLe k now a b) (ha : isExpiredNow now a = true) :
    isExpiredNow now b = true := by
  by_contra hb
  have hb' : isExpiredNow now b = false := by simpa using hb
  unfold timerLe compareTimers at h
  rw [ha, hb'] at h
  simp at h

/-- C8: in the projection returned by `getFilteredAndSortedTimers`, for
every filter and every sort key, an expired timer (flagged or live
expired) never precedes a non-expired one: whatever appears after an
expired entry is expired too. The projection is a pure function of the
collection, so the collection itself is untouched. -/
theorem sort_partition (timers : List Timer) (filter : FilterOption)
    (sortKey : SortOption) (now : Nat)
    (i j : Fin (getFilteredAndSortedTimers timers filter sortKey now).length)
    (hij : i < j)
    (hi : isExpiredNow now
      ((getFilteredAndSortedTimers timers filter sortKey now).get i) = true) :
    isExpiredNow now
      ((getFilteredAndSortedTimers timers filter sortKey now).get j) = true := by
  have hsorted : (getFilteredAndSortedTimers timers filter sortKey now).Sorted
      (timerLe sortKey now) := by
    unfold getFilteredAndSortedTimers
    cases filter <;> exact List.sorted_insertionSort _ _
  exact timerLe_expired sortKey now (hsorted.rel_get_of_lt hij) hi

/-- Witness for C8: two expired timers stay mutually ordered; the entry
after the first expired one is expired. -/
theorem sort_partition_witness :
    isExpiredNow 60000
      ((getFilteredAndSortedTimers [finishedSample, dueSample]
        FilterOption.all SortOption.dateAsc 60000).get ⟨1, by decide⟩) = true :=
  sort_partition [finishedSample, dueSample] FilterOption.all SortOption.dateAsc 60000
    ⟨0, by decide⟩ ⟨1, by decide⟩ (by decide) (by decide)

end Countdown
